import Mathlib

/-!
Verification development for the FocusMochi perception-to-mood pipeline.

The Rust source is embedded shallowly: `f32` arithmetic is modelled by exact
rationals (`ℚ`), `Instant` timestamps by rational time points passed to each
call, and fallible or optional values by `Option`.  The library function
`f32::atan2` composed with `to_degrees` is abstracted as an explicit function
parameter `atanDeg`, since both the code and its specification invoke the same
library routine.
-/

namespace FocusMochi

attribute [local semireducible] Rat.add Rat.sub Rat.mul Rat.inv Rat.ofScientific

/-- Axis-aligned box in normalized coordinates, the `(x_min, y_min, x_max,
y_max)` tuple of `FaceDetection.bbox` in `vision/face.rs`. -/
structure Box where
  x_min : ℚ
  y_min : ℚ
  x_max : ℚ
  y_max : ℚ
deriving DecidableEq

/-- A face detection from `vision/face.rs`: confidence, bounding box and six
landmarks (right eye, left eye, nose, mouth, right ear, left ear). -/
structure FaceDetection where
  confidence : ℚ
  bbox : Box
  landmarks : Fin 6 → ℚ × ℚ

/-- `FaceDetection::center` from `vision/face.rs`. -/
def FaceDetection.center (f : FaceDetection) : ℚ × ℚ :=
  ((f.bbox.x_min + f.bbox.x_max) / 2, (f.bbox.y_min + f.bbox.y_max) / 2)

/-- `FaceDetection::size` from `vision/face.rs`: bounding-box area. -/
def FaceDetection.size (f : FaceDetection) : ℚ :=
  (f.bbox.x_max - f.bbox.x_min) * (f.bbox.y_max - f.bbox.y_min)

/-- `FaceDetection::estimate_yaw` from `vision/face.rs`. -/
def FaceDetection.estimate_yaw (f : FaceDetection) : ℚ :=
  let right_eye_x := (f.landmarks 0).1
  let left_eye_x := (f.landmarks 1).1
  let face_cx := f.center.1
  let eyes_center_x := (right_eye_x + left_eye_x) / 2
  let offset := eyes_center_x - face_cx
  offset * 90

/-- `FaceDetection::estimate_pitch` from `vision/face.rs`. -/
def FaceDetection.estimate_pitch (f : FaceDetection) : ℚ :=
  let right_eye_y := (f.landmarks 0).2
  let left_eye_y := (f.landmarks 1).2
  let nose_y := (f.landmarks 2).2
  let eyes_center_y := (right_eye_y + left_eye_y) / 2
  let nose_offset := nose_y - eyes_center_y
  (nose_offset - 1/10) * 150

/-- `FaceDetection::estimate_roll` from `vision/face.rs`.  The argument
`atanDeg y x` models the library call `y.atan2(x).to_degrees()`. -/
def FaceDetection.estimate_roll (atanDeg : ℚ → ℚ → ℚ) (f : FaceDetection) : ℚ :=
  let dy := (f.landmarks 1).2 - (f.landmarks 0).2
  let dx := (f.landmarks 1).1 - (f.landmarks 0).1
  atanDeg dy dx

/-- Yaw as the spec words it: `(eyesCenterX − faceCenterX) × 90` where
`eyesCenterX` is the mean x of the two eye landmarks and `faceCenterX`
the bbox center x. -/
def spec_yaw (f : FaceDetection) : ℚ :=
  (((f.landmarks 0).1 + (f.landmarks 1).1) / 2
      - (f.bbox.x_min + f.bbox.x_max) / 2) * 90

/-- Pitch as the spec words it: `(noseY − eyesCenterY − 0.1) × 150`. -/
def spec_pitch (f : FaceDetection) : ℚ :=
  ((f.landmarks 2).2 - ((f.landmarks 0).2 + (f.landmarks 1).2) / 2 - 1/10) * 150

/-- Roll as the spec words it: `atan2(leftEyeY−rightEyeY, leftEyeX−rightEyeX)`
in degrees, with the library routine abstracted as `atanDeg`. -/
def spec_roll (atanDeg : ℚ → ℚ → ℚ) (f : FaceDetection) : ℚ :=
  atanDeg ((f.landmarks 1).2 - (f.landmarks 0).2)
    ((f.landmarks 1).1 - (f.landmarks 0).1)

/-- `BlazeFaceDetector::calculate_iou` from `vision/face.rs`, with the `1e-6`
epsilon taken as the exact rational `1/1000000`. -/
def calculate_iou (box1 box2 : Box) : ℚ :=
  let inter_x1 := max box1.x_min box2.x_min
  let inter_y1 := max box1.y_min box2.y_min
  let inter_x2 := min box1.x_max box2.x_max
  let inter_y2 := min box1.y_max box2.y_max
  let inter_w := max (inter_x2 - inter_x1) 0
  let inter_h := max (inter_y2 - inter_y1) 0
  let inter_area := inter_w * inter_h
  let area1 := (box1.x_max - box1.x_min) * (box1.y_max - box1.y_min)
  let area2 := (box2.x_max - box2.x_min) * (box2.y_max - box2.y_min)
  inter_area / (area1 + area2 - inter_area + 1/1000000)

/-- Box area, matching `FaceDetection::size` applied to a bare box. -/
def boxArea (b : Box) : ℚ := (b.x_max - b.x_min) * (b.y_max - b.y_min)

/-- Two axis-aligned boxes are disjoint (non-overlapping). -/
def BoxDisjoint (b1 b2 : Box) : Prop :=
  b1.x_max ≤ b2.x_min ∨ b2.x_max ≤ b1.x_min ∨
    b1.y_max ≤ b2.y_min ∨ b2.y_max ≤ b1.y_min

instance : DecidablePred fun p : Box × Box => BoxDisjoint p.1 p.2 := by
  intro p; unfold BoxDisjoint; infer_instance

/-- `BlazeFaceDetector::nms` from `vision/face.rs`: greedy non-max
suppression.  Keeping the head and dropping every later detection whose IoU
with an already-kept one exceeds the threshold is expressed by filtering the
tail against the kept head and recursing. -/
def nms (nms_threshold : ℚ) : List FaceDetection → List FaceDetection
  | [] => []
  | d :: rest =>
      d :: nms nms_threshold
        (rest.filter fun d2 => !decide (nms_threshold < calculate_iou d.bbox d2.bbox))
termination_by l => l.length
decreasing_by
  simp only [List.length_cons]
  exact Nat.lt_succ_of_le (List.length_filter_le _ _)

/-- `FocusCalculatorConfig` from `vision/focus.rs`. -/
structure FocusCalculatorConfig where
  face_confidence_weight : ℚ
  yaw_weight : ℚ
  pitch_weight : ℚ
  roll_weight : ℚ
  max_yaw : ℚ
  max_pitch : ℚ
  max_roll : ℚ
  min_face_confidence : ℚ
  face_size_weight : ℚ
  ideal_face_size : ℚ
deriving DecidableEq

/-- The `Default` impl of `FocusCalculatorConfig`. -/
def FocusCalculatorConfig.default : FocusCalculatorConfig where
  face_confidence_weight := 3/10
  yaw_weight := 1/4
  pitch_weight := 1/5
  roll_weight := 1/10
  max_yaw := 30
  max_pitch := 25
  max_roll := 20
  min_face_confidence := 1/2
  face_size_weight := 3/20
  ideal_face_size := 3/20

/-- Rust `f32::clamp`: clamp `x` into `[lo, hi]`. -/
def clampQ (x lo hi : ℚ) : ℚ := min (max x lo) hi

/-- `FocusCalculator::calculate` from `vision/focus.rs`.  The `atanDeg`
parameter abstracts the `atan2`-in-degrees library call used by
`estimate_roll`. -/
def calculate (cfg : FocusCalculatorConfig) (atanDeg : ℚ → ℚ → ℚ)
    (detection : Option FaceDetection) : ℚ × Bool :=
  match detection with
  | none => (0, false)
  | some face =>
    if face.confidence < cfg.min_face_confidence then (0, false)
    else
      let conf_score := face.confidence
      let yaw := face.estimate_yaw
      let yaw_normalized := min (|yaw| / cfg.max_yaw) 1
      let yaw_score := 1 - yaw_normalized
      let pitch := face.estimate_pitch
      let pitch_normalized := min (|pitch| / cfg.max_pitch) 1
      let pitch_score := 1 - pitch_normalized
      let roll := face.estimate_roll atanDeg
      let roll_normalized := min (|roll| / cfg.max_roll) 1
      let roll_score := 1 - roll_normalized
      let face_size := face.size
      let size_diff := |face_size - cfg.ideal_face_size|
      let size_score := max (1 - size_diff / cfg.ideal_face_size) 0
      let focus_score := cfg.face_confidence_weight * conf_score
        + cfg.yaw_weight * yaw_score
        + cfg.pitch_weight * pitch_score
        + cfg.roll_weight * roll_score
        + cfg.face_size_weight * size_score
      (clampQ focus_score 0 1, true)

/-- The focus score as the spec words it: the weighted sum of the five
sub-scores — confidence; `1 − min(|yaw|/max_yaw, 1)`;
`1 − min(|pitch|/max_pitch, 1)`; `1 − min(|roll|/max_roll, 1)`;
`max(0, 1 − |area − ideal_area|/ideal_area)` — clamped to `[0, 1]`,
returned together with `face_present = true`; and `(0, false)` when the
detection is absent or its confidence is below `min_face_confidence`. -/
def calculate_spec (cfg : FocusCalculatorConfig) (atanDeg : ℚ → ℚ → ℚ)
    (detection : Option FaceDetection) : ℚ × Bool :=
  match detection with
  | none => (0, false)
  | some face =>
    if face.confidence < cfg.min_face_confidence then (0, false)
    else
      (clampQ
        (cfg.face_confidence_weight * face.confidence
          + cfg.yaw_weight * (1 - min (|spec_yaw face| / cfg.max_yaw) 1)
          + cfg.pitch_weight * (1 - min (|spec_pitch face| / cfg.max_pitch) 1)
          + cfg.roll_weight * (1 - min (|spec_roll atanDeg face| / cfg.max_roll) 1)
          + cfg.face_size_weight
              * max 0 (1 - |face.size - cfg.ideal_face_size| / cfg.ideal_face_size))
        0 1, true)

/-- `PetMood` from `state/pet_state.rs`. -/
inductive PetMood where
  | Idle
  | Happy
  | Excited
  | Sad
  | Sleepy
  | Interact
deriving DecidableEq

/-- `FocusLevel` from `state/pet_state.rs`. -/
inductive FocusLevel where
  | Away
  | Distracted
  | Focused
deriving DecidableEq

/-- `GestureType` from `state/pet_state.rs`. -/
inductive GestureType where
  | Wave
  | Heart
  | Ok
  | ThumbsUp
deriving DecidableEq

/-- `PetStateConfig` from `state/pet_state.rs`. -/
structure PetStateConfig where
  focus_enter_threshold : ℚ
  focus_exit_threshold : ℚ
  focus_confirm_duration : ℚ
  excited_focus_minutes : ℚ
  away_timeout : ℚ
  interact_duration : ℚ
deriving DecidableEq

/-- The `Default` impl of `PetStateConfig`. -/
def PetStateConfig.default : PetStateConfig where
  focus_enter_threshold := 3/4
  focus_exit_threshold := 7/20
  focus_confirm_duration := 3
  excited_focus_minutes := 25
  away_timeout := 5
  interact_duration := 3

/-- `PetStateMachine` from `state/pet_state.rs`.  `Instant` fields become
rational time points; durations are in seconds. -/
structure PetStateMachine where
  mood : PetMood
  focus_level : FocusLevel
  config : PetStateConfig
  mood_entered_at : ℚ
  focus_started_at : Option ℚ
  last_face_detected_at : Option ℚ
  smoothed_focus_score : ℚ
  ema_alpha : ℚ
  mood_before_interact : Option PetMood
  total_focus_ms : ℕ
deriving DecidableEq

/-- `Instant::duration_since` in seconds: saturates at zero when `t` is not
in the past. -/
def durSince (now t : ℚ) : ℚ := max (now - t) 0

/-- `PetStateMachine::new`, with the construction instant made explicit. -/
def PetStateMachine.new (config : PetStateConfig) (now : ℚ) : PetStateMachine where
  mood := PetMood.Idle
  focus_level := FocusLevel.Away
  config := config
  mood_entered_at := now
  focus_started_at := none
  last_face_detected_at := none
  smoothed_focus_score := 0
  ema_alpha := 3/20
  mood_before_interact := none
  total_focus_ms := 0

/-- `PetStateMachine::determine_focus_level` from `state/pet_state.rs`. -/
def PetStateMachine.determine_focus_level (s : PetStateMachine) : FocusLevel :=
  match s.focus_level with
  | FocusLevel.Focused =>
      if s.smoothed_focus_score < s.config.focus_exit_threshold
      then FocusLevel.Distracted else FocusLevel.Focused
  | FocusLevel.Distracted | FocusLevel.Away =>
      if s.config.focus_enter_threshold < s.smoothed_focus_score
      then FocusLevel.Focused else FocusLevel.Distracted

/-- `PetStateMachine::transition_to` from `state/pet_state.rs`. -/
def PetStateMachine.transition_to (s : PetStateMachine) (new_mood : PetMood)
    (now : ℚ) : PetStateMachine :=
  if s.mood ≠ new_mood then { s with mood := new_mood, mood_entered_at := now } else s

/-- The `FocusLevel::Focused` arm of the `match new_focus_level` block in
`PetStateMachine::update`: mark the focus-segment start on first entry, pick
Happy or Excited from the continuous focus duration, and accumulate the
per-tick 66 ms focus increment. -/
def PetStateMachine.stepFocused (s : PetStateMachine) (now : ℚ) : PetStateMachine :=
  let s1 :=
    if s.focus_level ≠ FocusLevel.Focused then
      { s with focus_started_at := some now, focus_level := FocusLevel.Focused }
    else s
  match s1.focus_started_at with
  | some start =>
      let s2 :=
        if s1.config.excited_focus_minutes * 60 ≤ durSince now start then
          s1.transition_to PetMood.Excited now
        else
          s1.transition_to PetMood.Happy now
      { s2 with total_focus_ms := s2.total_focus_ms + 66 }
  | none => s1

/-- The tail of `PetStateMachine::update` (the `match new_focus_level` block):
EMA smoothing has already been applied to `s`, and the per-tick mood mapping
follows from `determine_focus_level`. -/
def PetStateMachine.stepFocus (s : PetStateMachine) (now : ℚ) : PetStateMachine :=
  match s.determine_focus_level with
  | FocusLevel.Focused => s.stepFocused now
  | FocusLevel.Distracted =>
      ({ s with focus_level := FocusLevel.Distracted,
                focus_started_at := none }).transition_to PetMood.Sad now
  | FocusLevel.Away =>
      ({ s with focus_level := FocusLevel.Away,
                focus_started_at := none }).transition_to PetMood.Sleepy now

/-- The body of `PetStateMachine::update` after the last-seen timestamp has
been refreshed: the absence check, the Interact early return, EMA smoothing,
and the level-driven mood mapping. -/
def PetStateMachine.updateCore (s : PetStateMachine) (now raw_focus_score : ℚ) :
    PetStateMachine :=
  match s.last_face_detected_at with
  | some last_face =>
      if s.config.away_timeout < durSince now last_face then
        { s.transition_to PetMood.Sleepy now with
            focus_level := FocusLevel.Away, focus_started_at := none }
      else if s.mood = PetMood.Interact then
        if s.config.interact_duration < durSince now s.mood_entered_at then
          match s.mood_before_interact with
          | some prev =>
              { s with mood := prev, mood_entered_at := now,
                       mood_before_interact := none }
          | none => { s with mood_before_interact := none }
        else s
      else
        PetStateMachine.stepFocus
          { s with smoothed_focus_score :=
              s.ema_alpha * raw_focus_score
                + (1 - s.ema_alpha) * s.smoothed_focus_score } now
  | none =>
      { s.transition_to PetMood.Sleepy now with focus_level := FocusLevel.Away }

/-- `PetStateMachine::update` from `state/pet_state.rs`, with the call
instant made explicit.  Returns the updated machine together with the
`Option<PetMood>` the Rust method returns. -/
def PetStateMachine.update (s : PetStateMachine) (now raw_focus_score : ℚ)
    (face_detected : Bool) : PetStateMachine × Option PetMood :=
  let old_mood := s.mood
  let s1 := if face_detected then { s with last_face_detected_at := some now } else s
  let s2 := s1.updateCore now raw_focus_score
  (s2, if old_mood ≠ s2.mood then some s2.mood else none)

/-- `PetStateMachine::on_gesture` from `state/pet_state.rs`, with the call
instant made explicit.  Returns the updated machine and the returned mood. -/
def PetStateMachine.on_gesture (s : PetStateMachine) (_gesture : GestureType)
    (now : ℚ) : PetStateMachine × PetMood :=
  let s1 :=
    if s.mood ≠ PetMood.Interact then { s with mood_before_interact := some s.mood }
    else s
  let s2 := { s1 with mood := PetMood.Interact, mood_entered_at := now }
  (s2, s2.mood)

/-- `PetStateMachine::reset_daily_stats` from `state/pet_state.rs`. -/
def PetStateMachine.reset_daily_stats (s : PetStateMachine) : PetStateMachine :=
  { s with total_focus_ms := 0 }

/-- The condition under which the absence rule at the top of
`PetStateMachine::update` fires, evaluated after the last-seen timestamp has
been refreshed for the current tick. -/
def absenceFires (s : PetStateMachine) (now : ℚ) (face_detected : Bool) : Bool :=
  match (if face_detected then some now else s.last_face_detected_at) with
  | none => true
  | some t => decide (s.config.away_timeout < durSince now t)

/-- States reachable from a freshly constructed machine through sequences of
`update`, `on_gesture` and `reset_daily_stats` calls at arbitrary instants. -/
inductive Reachable : PetStateMachine → Prop where
  | init (config : PetStateConfig) (now : ℚ) : Reachable (PetStateMachine.new config now)
  | step_update (s : PetStateMachine) (now raw : ℚ) (face : Bool) :
      Reachable s → Reachable (s.update now raw face).1
  | step_gesture (s : PetStateMachine) (g : GestureType) (now : ℚ) :
      Reachable s → Reachable (s.on_gesture g now).1
  | step_reset (s : PetStateMachine) :
      Reachable s → Reachable s.reset_daily_stats

/-- A sample detection used to instantiate witnesses. -/
def sampleDet (c : ℚ) (b : Box) : FaceDetection :=
  ⟨c, b, fun _ => (0, 0)⟩

/-- Invariant: while no face has ever been seen, no focus segment has
started. -/
def InvFS (s : PetStateMachine) : Prop :=
  s.last_face_detected_at = none → s.focus_started_at = none

/-- Invariant on the saved pre-interact mood: it is populated whenever the
machine is in Interact, and it never stores Interact itself. -/
def InvMBI (s : PetStateMachine) : Prop :=
  (s.mood = PetMood.Interact → s.mood_before_interact ≠ none) ∧
  s.mood_before_interact ≠ some PetMood.Interact

/-- One tick of the C9 scenario: `update(0.9, true)` at instant `k/15`
(the 15 fps capture cadence). -/
def tickAt (k : ℕ) (s : PetStateMachine) : PetStateMachine :=
  (s.update ((k : ℚ) / 15) (9/10) true).1

/-- Run `n` consecutive C9 ticks starting at tick index `a`. -/
def runSeg (s : PetStateMachine) (a : ℕ) : ℕ → PetStateMachine
  | 0 => s
  | n + 1 => tickAt (a + n) (runSeg s a n)

/-- The machine after 100 consecutive ticks with raw score 0.9 and a face
present, starting from a fresh machine. -/
def run100 : PetStateMachine :=
  runSeg (PetStateMachine.new PetStateConfig.default 0) 0 100

/-- The machine state after tick 10 of the C9 run. -/
def chk10 : PetStateMachine where
  mood := PetMood.Sad
  focus_level := FocusLevel.Distracted
  config := PetStateConfig.default
  mood_entered_at := 0
  focus_started_at := none
  last_face_detected_at := some (3/5)
  smoothed_focus_score := 74016054895959/102400000000000
  ema_alpha := 3/20
  mood_before_interact := none
  total_focus_ms := 0

/-- The machine state after tick 20 of the C9 run. -/
def chk20 : PetStateMachine where
  mood := PetMood.Happy
  focus_level := FocusLevel.Focused
  config := PetStateConfig.default
  mood_entered_at := 11/15
  focus_started_at := some (11/15)
  last_face_detected_at := some (19/15)
  smoothed_focus_score := 907140317340171847298385591/1048576000000000000000000000
  ema_alpha := 3/20
  mood_before_interact := none
  total_focus_ms := 594

/-- The machine state after tick 30 of the C9 run. -/
def chk30 : PetStateMachine where
  mood := PetMood.Happy
  focus_level := FocusLevel.Focused
  config := PetStateConfig.default
  mood_entered_at := 11/15
  focus_started_at := some (11/15)
  last_face_detected_at := some (29/15)
  smoothed_focus_score :=
    9589935224467667109991013990740870030359/10737418240000000000000000000000000000000
  ema_alpha := 3/20
  mood_before_interact := none
  total_focus_ms := 1254

/-- The machine state after tick 40 of the C9 run. -/
def chk40 : PetStateMachine where
  mood := PetMood.Happy
  focus_level := FocusLevel.Focused
  config := PetStateConfig.default
  mood_entered_at := 11/15
  focus_started_at := some (11/15)
  last_face_detected_at := some (13/5)
  smoothed_focus_score :=
    98807384707498975445974495792534215743739209453731191/109951162777600000000000000000000000000000000000000000
  ema_alpha := 3/20
  mood_before_interact := none
  total_focus_ms := 1914

/-- The machine state after tick 50 of the C9 run. -/
def chk50 : PetStateMachine where
  mood := PetMood.Happy
  focus_level := FocusLevel.Focused
  config := PetStateConfig.default
  mood_entered_at := 11/15
  focus_started_at := some (11/15)
  last_face_detected_at := some (49/15)
  smoothed_focus_score :=
    1013010214891772278634573243048567193091510072318483318340460204759/1125899906842624000000000000000000000000000000000000000000000000000
  ema_alpha := 3/20
  mood_before_interact := none
  total_focus_ms := 2574

/-- The machine state after tick 60 of the C9 run. -/
def chk60 : PetStateMachine where
  mood := PetMood.Happy
  focus_level := FocusLevel.Focused
  config := PetStateConfig.default
  mood_entered_at := 11/15
  focus_started_at := some (11/15)
  last_face_detected_at := some (59/15)
  smoothed_focus_score :=
    10375689345536221872453461381796052251141413117280709249497124905921761602036791/11529215046068469760000000000000000000000000000000000000000000000000000000000000
  ema_alpha := 3/20
  mood_before_interact := none
  total_focus_ms := 3234

/-- The machine state after tick 70 of the C9 run. -/
def chk70 : PetStateMachine where
  mood := PetMood.Happy
  focus_level := FocusLevel.Focused
  config := PetStateConfig.default
  mood_entered_at := 11/15
  focus_started_at := some (11/15)
  last_face_detected_at := some (23/5)
  smoothed_focus_score :=
    106252027809266732931457233570302016542808784342580388924318820330900554349719269190889419159/118059162071741130342400000000000000000000000000000000000000000000000000000000000000000000000
  ema_alpha := 3/20
  mood_before_interact := none
  total_focus_ms := 3894

/-- The machine state after tick 80 of the C9 run. -/
def chk80 : PetStateMachine where
  mood := PetMood.Happy
  focus_level := FocusLevel.Focused
  config := PetStateConfig.default
  mood_entered_at := 11/15
  focus_started_at := some (11/15)
  last_face_detected_at := some (79/15)
  smoothed_focus_score :=
    1088030782061110474357030493079464544381067203528778718500872898069310649404226862304314956465796479302391/1208925819614629174706176000000000000000000000000000000000000000000000000000000000000000000000000000000000
  ema_alpha := 3/20
  mood_before_interact := none
  total_focus_ms := 4554

/-- The machine state after tick 90 of the C9 run. -/
def chk90 : PetStateMachine where
  mood := PetMood.Happy
  focus_level := FocusLevel.Focused
  config := PetStateConfig.default
  mood_entered_at := 11/15
  focus_started_at := some (11/15)
  last_face_detected_at := some (89/15)
  smoothed_focus_score :=
    11141455403109816024788448268155973706531190338231175545331998551789943977637080470204136757088448676368239130621673559/12379400392853802748991242240000000000000000000000000000000000000000000000000000000000000000000000000000000000000000000
  ema_alpha := 3/20
  mood_before_interact := none
  total_focus_ms := 5214

/-- The machine state after tick 100 of the C9 run. -/
def chk100 : PetStateMachine where
  mood := PetMood.Happy
  focus_level := FocusLevel.Focused
  config := PetStateConfig.default
  mood_entered_at := 11/15
  focus_started_at := some (11/15)
  last_face_detected_at := some (33/5)
  smoothed_focus_score :=
    114088544040446291107650516728834557124145302075845491151084280375071428490011775487699720588177751695954157696763936472384421527991/126765060022822940149670320537600000000000000000000000000000000000000000000000000000000000000000000000000000000000000000000000000000
  ema_alpha := 3/20
  mood_before_interact := none
  total_focus_ms := 5874

/-! ## Theorems -/

/-- C8: the pose estimators compute exactly the spec formulas: yaw is
`(eyesCenterX − faceCenterX) × 90`, pitch is `(noseY − eyesCenterY − 0.1) × 150`,
and roll is `atan2(leftEyeY − rightEyeY, leftEyeX − rightEyeX)` in degrees. -/
theorem pose_estimators_match_spec (atanDeg : ℚ → ℚ → ℚ) (f : FaceDetection) :
    f.estimate_yaw = spec_yaw f ∧
    f.estimate_pitch = spec_pitch f ∧
    f.estimate_roll atanDeg = spec_roll atanDeg f := by
  refine ⟨?_, rfl, rfl⟩
  unfold FaceDetection.estimate_yaw spec_yaw FaceDetection.center
  ring

/-- C4: `FocusCalculator::calculate` returns exactly `(0, false)` when the
detection is absent or its confidence is below `min_face_confidence`, and
otherwise the clamped weighted sum of the five sub-scores as the spec states
them; the default weights are 0.3/0.25/0.2/0.1/0.15 with
`min_face_confidence = 0.5`. -/
theorem calculate_matches_spec (cfg : FocusCalculatorConfig)
    (atanDeg : ℚ → ℚ → ℚ) (detection : Option FaceDetection) :
    calculate cfg atanDeg detection = calculate_spec cfg atanDeg detection ∧
    FocusCalculatorConfig.default.face_confidence_weight = 3/10 ∧
    FocusCalculatorConfig.default.yaw_weight = 1/4 ∧
    FocusCalculatorConfig.default.pitch_weight = 1/5 ∧
    FocusCalculatorConfig.default.roll_weight = 1/10 ∧
    FocusCalculatorConfig.default.face_size_weight = 3/20 ∧
    FocusCalculatorConfig.default.min_face_confidence = 1/2 := by
  refine ⟨?_, rfl, rfl, rfl, rfl, rfl, rfl⟩
  cases detection with
  | none => rfl
  | some face =>
    by_cases h : face.confidence < cfg.min_face_confidence
    · simp [calculate, calculate_spec, h]
    · simp only [calculate, calculate_spec, if_neg h, Prod.mk.injEq, and_true]
      congr 1
      rw [max_comm]
      rfl

/-- C3: `determine_focus_level` is hysteretic: from Focused it drops to
Distracted exactly when the smoothed score is strictly below
`focus_exit_threshold` (default 0.35), and from Distracted or Away it enters
Focused exactly when the smoothed score is strictly above
`focus_enter_threshold` (default 0.75), becoming Distracted otherwise. -/
theorem determine_focus_level_hysteretic (s : PetStateMachine) :
    (s.focus_level = FocusLevel.Focused →
      s.determine_focus_level =
        if s.smoothed_focus_score < s.config.focus_exit_threshold
        then FocusLevel.Distracted else FocusLevel.Focused) ∧
    (s.focus_level ≠ FocusLevel.Focused →
      s.determine_focus_level =
        if s.config.focus_enter_threshold < s.smoothed_focus_score
        then FocusLevel.Focused else FocusLevel.Distracted) ∧
    PetStateConfig.default.focus_exit_threshold = 7/20 ∧
    PetStateConfig.default.focus_enter_threshold = 3/4 := by
  refine ⟨fun h => ?_, fun h => ?_, rfl, rfl⟩ <;>
    cases hl : s.focus_level <;>
      simp_all [PetStateMachine.determine_focus_level]

/-- Witness for C3 at the freshly constructed machine, whose level is Away. -/
theorem determine_focus_level_hysteretic_witness :
    (PetStateMachine.new PetStateConfig.default 0).determine_focus_level =
      if (PetStateMachine.new PetStateConfig.default 0).config.focus_enter_threshold <
          (PetStateMachine.new PetStateConfig.default 0).smoothed_focus_score
      then FocusLevel.Focused else FocusLevel.Distracted :=
  (determine_focus_level_hysteretic _).2.1 (by decide)

/-- IoU is symmetric in its two boxes. -/
lemma iou_comm (b1 b2 : Box) : calculate_iou b1 b2 = calculate_iou b2 b1 := by
  unfold calculate_iou
  rw [max_comm b1.x_min, max_comm b1.y_min, min_comm b1.x_max, min_comm b1.y_max]
  ring_nf

/-- Self-IoU of a well-formed box: the epsilon in the denominator keeps it
strictly below 1, but within `1e-3` of 1 as soon as the area is at least
`999/1000000`. -/
lemma iou_self_near_one (b : Box) (hx : b.x_min < b.x_max) (hy : b.y_min < b.y_max)
    (h : 999/1000000 ≤ boxArea b) : |calculate_iou b b - 1| ≤ 1/1000 := by
  have hA : 0 < boxArea b := mul_pos (by linarith) (by linarith)
  have e : calculate_iou b b = boxArea b / (boxArea b + 1/1000000) := by
    simp only [calculate_iou, boxArea, max_self, min_self,
      max_eq_left (by linarith : (0:ℚ) ≤ b.x_max - b.x_min),
      max_eq_left (by linarith : (0:ℚ) ≤ b.y_max - b.y_min)]
    ring_nf
  have hpos : 0 < boxArea b + 1/1000000 := by linarith
  have e2 : calculate_iou b b - 1 = -(1/1000000 / (boxArea b + 1/1000000)) := by
    rw [e]; field_simp
  rw [e2, abs_neg, abs_of_nonneg (by positivity), div_le_iff₀ hpos]
  linarith

/-- IoU of disjoint boxes is zero. -/
lemma iou_disjoint_zero (b1 b2 : Box) (h : BoxDisjoint b1 b2) :
    calculate_iou b1 b2 = 0 := by
  simp only [calculate_iou]
  rcases h with h | h | h | h
  · rw [max_eq_right (a := min b1.x_max b2.x_max - max b1.x_min b2.x_min)
      (by linarith [min_le_left b1.x_max b2.x_max, le_max_right b1.x_min b2.x_min])]
    simp
  · rw [max_eq_right (a := min b1.x_max b2.x_max - max b1.x_min b2.x_min)
      (by linarith [min_le_right b1.x_max b2.x_max, le_max_left b1.x_min b2.x_min])]
    simp
  · rw [max_eq_right (a := min b1.y_max b2.y_max - max b1.y_min b2.y_min)
      (by linarith [min_le_left b1.y_max b2.y_max, le_max_right b1.y_min b2.y_min])]
    simp
  · rw [max_eq_right (a := min b1.y_max b2.y_max - max b1.y_min b2.y_min)
      (by linarith [min_le_right b1.y_max b2.y_max, le_max_left b1.y_min b2.y_min])]
    simp

/-- C7 (amended): IoU is symmetric; self-IoU of a well-formed box is within
`1e-3` of 1 provided the area is at least `999/1000000` (the epsilon-guarded
denominator makes smaller boxes fall short); and the IoU of disjoint boxes
is exactly 0. -/
theorem iou_properties :
    (∀ b1 b2 : Box, calculate_iou b1 b2 = calculate_iou b2 b1) ∧
    (∀ b : Box, b.x_min < b.x_max → b.y_min < b.y_max →
      999/1000000 ≤ boxArea b → |calculate_iou b b - 1| ≤ 1/1000) ∧
    (∀ b1 b2 : Box, BoxDisjoint b1 b2 → calculate_iou b1 b2 = 0) :=
  ⟨iou_comm, iou_self_near_one, iou_disjoint_zero⟩

/-- Witness for C7 at concrete boxes: the unit box and a disjoint box. -/
theorem iou_properties_witness :
    calculate_iou ⟨0, 0, 1, 1⟩ ⟨2, 2, 3, 3⟩ = calculate_iou ⟨2, 2, 3, 3⟩ ⟨0, 0, 1, 1⟩ ∧
    |calculate_iou ⟨0, 0, 1, 1⟩ ⟨0, 0, 1, 1⟩ - 1| ≤ 1/1000 ∧
    calculate_iou ⟨0, 0, 1, 1⟩ ⟨2, 2, 3, 3⟩ = 0 :=
  ⟨iou_properties.1 _ _,
   iou_properties.2.1 ⟨0, 0, 1, 1⟩ (by norm_num) (by norm_num) (by norm_num [boxArea]),
   iou_properties.2.2 _ _ (Or.inl (by norm_num))⟩

/-- Counterexample to C7 as stated: the box `(0, 0, 1/10, 1/1000)` has
positive area `1/10000`, yet its self-IoU is `100/101`, which is not within
`1e-3` of 1 — the `1e-6` epsilon in the denominator dominates for tiny
boxes. -/
theorem iou_self_small_box_counterexample :
    0 < boxArea ⟨0, 0, 1/10, 1/1000⟩ ∧
    ¬ |calculate_iou ⟨0, 0, 1/10, 1/1000⟩ ⟨0, 0, 1/10, 1/1000⟩ - 1| ≤ 1/1000 := by
  constructor
  · norm_num [boxArea]
  · have e : calculate_iou ⟨0, 0, 1/10, 1/1000⟩ ⟨0, 0, 1/10, 1/1000⟩ = 100/101 := by
      norm_num [calculate_iou]
    rw [e]
    norm_num [abs_of_nonpos]

lemma nms_nil (thr : ℚ) : nms thr [] = [] := by
  rw [nms]

lemma nms_cons (thr : ℚ) (d : FaceDetection) (rest : List FaceDetection) :
    nms thr (d :: rest) =
      d :: nms thr
        (rest.filter fun d2 => !decide (thr < calculate_iou d.bbox d2.bbox)) := by
  rw [nms]

/-- The NMS output is a sublist of its input. -/
lemma nms_sublist (thr : ℚ) (l : List FaceDetection) : (nms thr l).Sublist l := by
  have H : ∀ (n : ℕ) (l : List FaceDetection), l.length ≤ n → (nms thr l).Sublist l := by
    intro n
    induction n with
    | zero =>
      intro l hl
      rw [List.length_eq_zero.mp (Nat.le_zero.mp hl), nms_nil]
    | succ n ih =>
      intro l hl
      cases l with
      | nil => simp [nms_nil]
      | cons d rest =>
        rw [nms_cons]
        refine List.Sublist.cons₂ d ?_
        refine (ih _ ?_).trans (List.filter_sublist _)
        exact le_trans (List.length_filter_le _ _) (Nat.lt_succ_iff.mp hl)
  exact H l.length l le_rfl

/-- Any two detections kept by NMS, in output order, have IoU at most the
threshold. -/
lemma nms_pairwise (thr : ℚ) (l : List FaceDetection) :
    (nms thr l).Pairwise fun a b => calculate_iou a.bbox b.bbox ≤ thr := by
  have H : ∀ (n : ℕ) (l : List FaceDetection), l.length ≤ n →
      (nms thr l).Pairwise fun a b => calculate_iou a.bbox b.bbox ≤ thr := by
    intro n
    induction n with
    | zero =>
      intro l hl
      rw [List.length_eq_zero.mp (Nat.le_zero.mp hl), nms_nil]
      exact List.Pairwise.nil
    | succ n ih =>
      intro l hl
      cases l with
      | nil => simp [nms_nil]
      | cons d rest =>
        rw [nms_cons]
        refine List.Pairwise.cons ?_ ?_
        · intro b hb
          have hmem : b ∈ rest.filter fun d2 => !decide (thr < calculate_iou d.bbox d2.bbox) :=
            (nms_sublist thr _).subset hb
          have hp := List.of_mem_filter hmem
          simp only [Bool.not_eq_eq_eq_not, Bool.not_true, decide_eq_false_iff_not,
            not_lt] at hp
          exact hp
        · refine ih _ ?_
          exact le_trans (List.length_filter_le _ _) (Nat.lt_succ_iff.mp hl)
  exact H l.length l le_rfl

/-- NMS keeps the first element: heads of input and output agree. -/
lemma nms_head (thr : ℚ) (l : List FaceDetection) : (nms thr l).head? = l.head? := by
  cases l with
  | nil => rw [nms_nil]
  | cons d rest => rw [nms_cons]; rfl

/-- C5: on an input sorted descending by confidence, greedy NMS keeps no two
detections with mutual IoU strictly above the threshold, keeps the
highest-confidence (first) detection of a non-empty input, and its output is
still sorted descending by confidence. -/
theorem nms_correct (thr : ℚ) (l : List FaceDetection)
    (hs : l.Pairwise fun a b => b.confidence ≤ a.confidence) :
    ((nms thr l).Pairwise fun a b =>
      ¬ thr < calculate_iou a.bbox b.bbox ∧ ¬ thr < calculate_iou b.bbox a.bbox) ∧
    ((nms thr l).Pairwise fun a b => b.confidence ≤ a.confidence) ∧
    (nms thr l).head? = l.head? :=
  ⟨(nms_pairwise thr l).imp fun h =>
      ⟨not_lt.mpr h, not_lt.mpr (by rw [iou_comm]; exact h)⟩,
   hs.sublist (nms_sublist thr l),
   nms_head thr l⟩

/-- Witness for C5 on a concrete two-element sorted list whose boxes
coincide, so the second detection is suppressed. -/
theorem nms_correct_witness :
    ((nms (3/10) [sampleDet (9/10) ⟨0, 0, 1, 1⟩, sampleDet (8/10) ⟨0, 0, 1, 1⟩]).Pairwise
      fun a b => ¬ (3/10 : ℚ) < calculate_iou a.bbox b.bbox ∧
        ¬ (3/10 : ℚ) < calculate_iou b.bbox a.bbox) ∧
    ((nms (3/10) [sampleDet (9/10) ⟨0, 0, 1, 1⟩, sampleDet (8/10) ⟨0, 0, 1, 1⟩]).Pairwise
      fun a b => b.confidence ≤ a.confidence) ∧
    (nms (3/10) [sampleDet (9/10) ⟨0, 0, 1, 1⟩, sampleDet (8/10) ⟨0, 0, 1, 1⟩]).head? =
      [sampleDet (9/10) ⟨0, 0, 1, 1⟩, sampleDet (8/10) ⟨0, 0, 1, 1⟩].head? :=
  nms_correct (3/10) _ (by simp [sampleDet]; norm_num)

/-- The hysteretic level determination never yields Away. -/
lemma determine_ne_away (s : PetStateMachine) :
    s.determine_focus_level ≠ FocusLevel.Away := by
  unfold PetStateMachine.determine_focus_level
  split <;> split <;> simp

/-- A mood transition never changes the focus level. -/
lemma transition_to_focus_level (s : PetStateMachine) (m : PetMood) (now : ℚ) :
    (s.transition_to m now).focus_level = s.focus_level := by
  unfold PetStateMachine.transition_to
  split <;> rfl

/-- A mood transition always lands in the requested mood. -/
lemma transition_to_mood (s : PetStateMachine) (m : PetMood) (now : ℚ) :
    (s.transition_to m now).mood = m := by
  unfold PetStateMachine.transition_to
  split
  · rfl
  · next h => exact not_ne_iff.mp h

/-- A mood transition never changes the focus-segment start. -/
lemma transition_to_focus_started (s : PetStateMachine) (m : PetMood) (now : ℚ) :
    (s.transition_to m now).focus_started_at = s.focus_started_at := by
  unfold PetStateMachine.transition_to
  split <;> rfl

/-- A mood transition never changes the last-seen timestamp. -/
lemma transition_to_last (s : PetStateMachine) (m : PetMood) (now : ℚ) :
    (s.transition_to m now).last_face_detected_at = s.last_face_detected_at := by
  unfold PetStateMachine.transition_to
  split <;> rfl

/-- A mood transition never changes the smoothed score. -/
lemma transition_to_smoothed (s : PetStateMachine) (m : PetMood) (now : ℚ) :
    (s.transition_to m now).smoothed_focus_score = s.smoothed_focus_score := by
  unfold PetStateMachine.transition_to
  split <;> rfl

/-- A mood transition never changes the saved pre-interact mood. -/
lemma transition_to_mbi (s : PetStateMachine) (m : PetMood) (now : ℚ) :
    (s.transition_to m now).mood_before_interact = s.mood_before_interact := by
  unfold PetStateMachine.transition_to
  split <;> rfl

/-- The Focused arm of the mood mapping always lands on level Focused. -/
lemma stepFocused_focus_level (s : PetStateMachine) (now : ℚ) :
    (s.stepFocused now).focus_level = FocusLevel.Focused := by
  unfold PetStateMachine.stepFocused
  by_cases hf : s.focus_level = FocusLevel.Focused
  · simp only [hf, ne_eq, not_true_eq_false, if_false]
    cases hfs : s.focus_started_at with
    | none => simp only [hfs]; exact hf
    | some start =>
      simp only [hfs]
      split <;> simp [transition_to_focus_level, hf]
  · simp only [ne_eq, hf, not_false_eq_true, if_true]
    split <;> simp [transition_to_focus_level]

/-- The Focused arm of the mood mapping leaves the mood at Happy, Excited,
or — when the segment-start slot is unexpectedly empty — unchanged. -/
lemma stepFocused_mood (s : PetStateMachine) (now : ℚ) :
    (s.stepFocused now).mood = PetMood.Happy ∨
    (s.stepFocused now).mood = PetMood.Excited ∨
    (s.stepFocused now).mood = s.mood := by
  unfold PetStateMachine.stepFocused
  by_cases hf : s.focus_level = FocusLevel.Focused
  · simp only [hf, ne_eq, not_true_eq_false, if_false]
    cases hfs : s.focus_started_at with
    | none => simp [hfs]
    | some start =>
      simp only [hfs]
      split <;> simp [transition_to_mood]
  · simp only [ne_eq, hf, not_false_eq_true, if_true]
    split <;> simp [transition_to_mood]

/-- The Focused arm of the mood mapping preserves the saved pre-interact
mood. -/
lemma stepFocused_mbi (s : PetStateMachine) (now : ℚ) :
    (s.stepFocused now).mood_before_interact = s.mood_before_interact := by
  unfold PetStateMachine.stepFocused
  by_cases hf : s.focus_level = FocusLevel.Focused
  · simp only [hf, ne_eq, not_true_eq_false, if_false]
    cases hfs : s.focus_started_at with
    | none => simp only [hfs]
    | some start =>
      simp only [hfs]
      split <;> simp [transition_to_mbi]
  · simp only [ne_eq, hf, not_false_eq_true, if_true]
    split <;> simp [transition_to_mbi]

/-- The Focused arm of the mood mapping preserves the last-seen timestamp. -/
lemma stepFocused_last (s : PetStateMachine) (now : ℚ) :
    (s.stepFocused now).last_face_detected_at = s.last_face_detected_at := by
  unfold PetStateMachine.stepFocused
  by_cases hf : s.focus_level = FocusLevel.Focused
  · simp only [hf, ne_eq, not_true_eq_false, if_false]
    cases hfs : s.focus_started_at with
    | none => simp only [hfs]
    | some start =>
      simp only [hfs]
      split <;> simp [transition_to_last]
  · simp only [ne_eq, hf, not_false_eq_true, if_true]
    split <;> simp [transition_to_last]

/-- The per-tick mood mapping sets the level to exactly what
`determine_focus_level` returned. -/
lemma stepFocus_focus_level (s : PetStateMachine) (now : ℚ) :
    (s.stepFocus now).focus_level = s.determine_focus_level := by
  unfold PetStateMachine.stepFocus
  split
  · next heq => rw [heq, stepFocused_focus_level]
  · next heq => rw [heq, transition_to_focus_level]
  · next heq => rw [heq, transition_to_focus_level]

/-- The per-tick mood mapping cannot produce the Interact mood if the
machine was not in Interact. -/
lemma stepFocus_mood_ne_interact (s : PetStateMachine) (now : ℚ)
    (h : s.mood ≠ PetMood.Interact) : (s.stepFocus now).mood ≠ PetMood.Interact := by
  unfold PetStateMachine.stepFocus
  split
  · rcases stepFocused_mood s now with hm | hm | hm <;> rw [hm] <;> simp_all
  · rw [transition_to_mood]; simp
  · rw [transition_to_mood]; simp

/-- The per-tick mood mapping preserves the saved pre-interact mood. -/
lemma stepFocus_mbi (s : PetStateMachine) (now : ℚ) :
    (s.stepFocus now).mood_before_interact = s.mood_before_interact := by
  unfold PetStateMachine.stepFocus
  split
  · rw [stepFocused_mbi]
  · rw [transition_to_mbi]
  · rw [transition_to_mbi]

/-- The per-tick mood mapping preserves the last-seen timestamp. -/
lemma stepFocus_last (s : PetStateMachine) (now : ℚ) :
    (s.stepFocus now).last_face_detected_at = s.last_face_detected_at := by
  unfold PetStateMachine.stepFocus
  split
  · rw [stepFocused_last]
  · rw [transition_to_last]
  · rw [transition_to_last]

lemma update_fst (s : PetStateMachine) (now raw : ℚ) (face : Bool) :
    (s.update now raw face).1 =
      (if face then { s with last_face_detected_at := some now } else s).updateCore
        now raw := rfl

lemma updateCore_never_seen (s : PetStateMachine) (now raw : ℚ)
    (hl : s.last_face_detected_at = none) :
    s.updateCore now raw =
      { s.transition_to PetMood.Sleepy now with focus_level := FocusLevel.Away } := by
  simp [PetStateMachine.updateCore, hl]

lemma updateCore_timeout (s : PetStateMachine) (now raw t : ℚ)
    (hl : s.last_face_detected_at = some t)
    (ht : s.config.away_timeout < durSince now t) :
    s.updateCore now raw =
      { s.transition_to PetMood.Sleepy now with
          focus_level := FocusLevel.Away, focus_started_at := none } := by
  simp [PetStateMachine.updateCore, hl, ht]

lemma updateCore_interact_hold (s : PetStateMachine) (now raw t : ℚ)
    (hl : s.last_face_detected_at = some t)
    (ht : ¬ s.config.away_timeout < durSince now t)
    (hm : s.mood = PetMood.Interact)
    (hd : ¬ s.config.interact_duration < durSince now s.mood_entered_at) :
    s.updateCore now raw = s := by
  simp [PetStateMachine.updateCore, hl, ht, hm, hd]

lemma updateCore_interact_expire (s : PetStateMachine) (now raw t : ℚ)
    (prev : PetMood)
    (hl : s.last_face_detected_at = some t)
    (ht : ¬ s.config.away_timeout < durSince now t)
    (hm : s.mood = PetMood.Interact)
    (hd : s.config.interact_duration < durSince now s.mood_entered_at)
    (hb : s.mood_before_interact = some prev) :
    s.updateCore now raw =
      { s with mood := prev, mood_entered_at := now,
               mood_before_interact := none } := by
  simp [PetStateMachine.updateCore, hl, ht, hm, hd, hb]

lemma updateCore_interact_expire_empty (s : PetStateMachine) (now raw t : ℚ)
    (hl : s.last_face_detected_at = some t)
    (ht : ¬ s.config.away_timeout < durSince now t)
    (hm : s.mood = PetMood.Interact)
    (hd : s.config.interact_duration < durSince now s.mood_entered_at)
    (hb : s.mood_before_interact = none) :
    s.updateCore now raw = { s with mood_before_interact := none } := by
  simp [PetStateMachine.updateCore, hl, ht, hm, hd, hb]

lemma updateCore_main (s : PetStateMachine) (now raw t : ℚ)
    (hl : s.last_face_detected_at = some t)
    (ht : ¬ s.config.away_timeout < durSince now t)
    (hm : ¬ s.mood = PetMood.Interact) :
    s.updateCore now raw =
      PetStateMachine.stepFocus
        { s with smoothed_focus_score :=
            s.ema_alpha * raw + (1 - s.ema_alpha) * s.smoothed_focus_score } now := by
  simp [PetStateMachine.updateCore, hl, ht, hm]

/-- `updateCore` never changes the last-seen timestamp. -/
lemma updateCore_last (s : PetStateMachine) (now raw : ℚ) :
    (s.updateCore now raw).last_face_detected_at = s.last_face_detected_at := by
  cases hl : s.last_face_detected_at with
  | none =>
    rw [updateCore_never_seen s now raw hl]
    simp [transition_to_last, hl]
  | some t =>
    by_cases ht : s.config.away_timeout < durSince now t
    · rw [updateCore_timeout s now raw t hl ht]
      simp [transition_to_last, hl]
    · by_cases hm : s.mood = PetMood.Interact
      · by_cases hd : s.config.interact_duration < durSince now s.mood_entered_at
        · cases hb : s.mood_before_interact with
          | none =>
            rw [updateCore_interact_expire_empty s now raw t hl ht hm hd hb]
            exact hl
          | some prev =>
            rw [updateCore_interact_expire s now raw t prev hl ht hm hd hb]
            exact hl
        · rw [updateCore_interact_hold s now raw t hl ht hm hd]
          exact hl
      · rw [updateCore_main s now raw t hl ht hm, stepFocus_last]
        exact hl

/-- A gesture never changes the last-seen timestamp. -/
lemma on_gesture_last (s : PetStateMachine) (g : GestureType) (now : ℚ) :
    (s.on_gesture g now).1.last_face_detected_at = s.last_face_detected_at := by
  simp only [PetStateMachine.on_gesture]
  split <;> rfl

/-- A gesture never changes the focus-segment start. -/
lemma on_gesture_fs (s : PetStateMachine) (g : GestureType) (now : ℚ) :
    (s.on_gesture g now).1.focus_started_at = s.focus_started_at := by
  simp only [PetStateMachine.on_gesture]
  split <;> rfl

lemma invFS_updateCore (s : PetStateMachine) (now raw : ℚ) (h : InvFS s) :
    InvFS (s.updateCore now raw) := by
  intro hnone
  rw [updateCore_last] at hnone
  rw [updateCore_never_seen s now raw hnone]
  show (s.transition_to PetMood.Sleepy now).focus_started_at = none
  rw [transition_to_focus_started]
  exact h hnone

lemma reachable_invFS {s : PetStateMachine} (h : Reachable s) : InvFS s := by
  induction h with
  | init config now => intro _; rfl
  | step_update s now raw face _ ih =>
    rw [update_fst]
    cases face with
    | false => exact invFS_updateCore s now raw ih
    | true =>
      refine invFS_updateCore _ now raw ?_
      intro hc
      cases hc
  | step_gesture s g now _ ih =>
    intro hnone
    rw [on_gesture_last] at hnone
    rw [on_gesture_fs]
    exact ih hnone
  | step_reset s _ ih => exact ih

/-- C10: `determine_focus_level` never returns Away, so whenever `update`
proceeds past the absence rule and the Interact rule (absence not firing and
mood not Interact), the resulting focus level is never Away — Away can only
come from the initial state or from the absence rule. -/
theorem focus_level_never_away :
    (∀ s : PetStateMachine, s.determine_focus_level ≠ FocusLevel.Away) ∧
    (∀ (s : PetStateMachine) (now raw : ℚ) (face : Bool),
      absenceFires s now face = false → s.mood ≠ PetMood.Interact →
      (s.update now raw face).1.focus_level ≠ FocusLevel.Away) := by
  refine ⟨determine_ne_away, ?_⟩
  intro s now raw face hna hm
  rw [update_fst]
  cases face with
  | true =>
    unfold absenceFires at hna
    rw [if_pos rfl] at hna
    simp only [decide_eq_false_iff_not] at hna
    rw [if_pos rfl,
      updateCore_main { s with last_face_detected_at := some now } now raw now rfl hna hm,
      stepFocus_focus_level]
    exact determine_ne_away _
  | false =>
    unfold absenceFires at hna
    rw [if_neg Bool.false_ne_true] at hna
    rw [if_neg Bool.false_ne_true]
    cases hl : s.last_face_detected_at with
    | none => rw [hl] at hna; cases hna
    | some t =>
      rw [hl] at hna
      simp only [decide_eq_false_iff_not] at hna
      rw [updateCore_main s now raw t hl hna hm, stepFocus_focus_level]
      exact determine_ne_away _

/-- Witness for C10 at a freshly constructed machine seeing a face at the
construction instant. -/
theorem focus_level_never_away_witness :
    ((PetStateMachine.new PetStateConfig.default 0).update 0 0 true).1.focus_level ≠
      FocusLevel.Away :=
  focus_level_never_away.2 (PetStateMachine.new PetStateConfig.default 0) 0 0 true
    (by decide) (by decide)

/-- C1: whenever the absence rule fires — no face ever seen, or the time
since the last detection exceeds `away_timeout` — `update` on a reachable
machine forces mood Sleepy and level Away, leaves the focus-segment start
cleared, and returns early: the smoothed score is not touched by EMA and the
saved pre-interact mood is not consumed, even if the machine was in
Interact. -/
theorem update_absence (s : PetStateMachine) (now raw : ℚ) (face : Bool)
    (hr : Reachable s) (ha : absenceFires s now face = true) :
    (s.update now raw face).1.mood = PetMood.Sleepy ∧
    (s.update now raw face).1.focus_level = FocusLevel.Away ∧
    (s.update now raw face).1.focus_started_at = none ∧
    (s.update now raw face).1.smoothed_focus_score = s.smoothed_focus_score ∧
    (s.update now raw face).1.mood_before_interact = s.mood_before_interact := by
  have hfs := reachable_invFS hr
  rw [update_fst]
  cases face with
  | true =>
    unfold absenceFires at ha
    rw [if_pos rfl] at ha
    simp only [decide_eq_true_eq] at ha
    rw [if_pos rfl,
      updateCore_timeout { s with last_face_detected_at := some now } now raw now rfl ha]
    refine ⟨?_, rfl, rfl, ?_, ?_⟩
    · exact transition_to_mood _ _ _
    · exact transition_to_smoothed _ _ _
    · exact transition_to_mbi _ _ _
  | false =>
    unfold absenceFires at ha
    rw [if_neg Bool.false_ne_true] at ha
    rw [if_neg Bool.false_ne_true]
    cases hl : s.last_face_detected_at with
    | none =>
      rw [updateCore_never_seen s now raw hl]
      refine ⟨?_, rfl, ?_, ?_, ?_⟩
      · exact transition_to_mood _ _ _
      · show (s.transition_to PetMood.Sleepy now).focus_started_at = none
        rw [transition_to_focus_started]
        exact hfs hl
      · exact transition_to_smoothed _ _ _
      · exact transition_to_mbi _ _ _
    | some t =>
      rw [hl] at ha
      simp only [decide_eq_true_eq] at ha
      rw [updateCore_timeout s now raw t hl ha]
      refine ⟨?_, rfl, rfl, ?_, ?_⟩
      · exact transition_to_mood _ _ _
      · exact transition_to_smoothed _ _ _
      · exact transition_to_mbi _ _ _

/-- Witness for C1: a freshly constructed machine has never seen a face, so
the first faceless tick puts it to sleep. -/
theorem update_absence_witness :
    ((PetStateMachine.new PetStateConfig.default 0).update 10 (1/2) false).1.mood =
        PetMood.Sleepy ∧
    ((PetStateMachine.new PetStateConfig.default 0).update 10 (1/2) false).1.focus_level =
        FocusLevel.Away ∧
    ((PetStateMachine.new PetStateConfig.default 0).update 10 (1/2) false).1.focus_started_at =
        none ∧
    ((PetStateMachine.new PetStateConfig.default 0).update 10 (1/2) false).1.smoothed_focus_score =
        (PetStateMachine.new PetStateConfig.default 0).smoothed_focus_score ∧
    ((PetStateMachine.new PetStateConfig.default 0).update 10 (1/2) false).1.mood_before_interact =
        (PetStateMachine.new PetStateConfig.default 0).mood_before_interact :=
  update_absence (PetStateMachine.new PetStateConfig.default 0) 10 (1/2) false
    (Reachable.init PetStateConfig.default 0) (by decide)

lemma invMBI_updateCore (s : PetStateMachine) (now raw : ℚ) (h : InvMBI s) :
    InvMBI (s.updateCore now raw) := by
  cases hl : s.last_face_detected_at with
  | none =>
    rw [updateCore_never_seen s now raw hl]
    constructor
    · intro hmood
      rw [show ({ s.transition_to PetMood.Sleepy now with
            focus_level := FocusLevel.Away } : PetStateMachine).mood =
          (s.transition_to PetMood.Sleepy now).mood from rfl,
        transition_to_mood] at hmood
      cases hmood
    · show (s.transition_to PetMood.Sleepy now).mood_before_interact ≠ some PetMood.Interact
      rw [transition_to_mbi]
      exact h.2
  | some t =>
    by_cases ht : s.config.away_timeout < durSince now t
    · rw [updateCore_timeout s now raw t hl ht]
      constructor
      · intro hmood
        rw [show ({ s.transition_to PetMood.Sleepy now with
              focus_level := FocusLevel.Away, focus_started_at := none } :
            PetStateMachine).mood = (s.transition_to PetMood.Sleepy now).mood from rfl,
          transition_to_mood] at hmood
        cases hmood
      · show (s.transition_to PetMood.Sleepy now).mood_before_interact ≠ some PetMood.Interact
        rw [transition_to_mbi]
        exact h.2
    · by_cases hm : s.mood = PetMood.Interact
      · by_cases hd : s.config.interact_duration < durSince now s.mood_entered_at
        · cases hb : s.mood_before_interact with
          | none => exact absurd hb (h.1 hm)
          | some prev =>
            rw [updateCore_interact_expire s now raw t prev hl ht hm hd hb]
            have hprev : prev ≠ PetMood.Interact := by
              intro he
              rw [he] at hb
              exact h.2 hb
            exact ⟨fun hmood => absurd hmood hprev, by simp⟩
        · rw [updateCore_interact_hold s now raw t hl ht hm hd]
          exact h
      · rw [updateCore_main s now raw t hl ht hm]
        constructor
        · intro hmood
          exact absurd hmood (stepFocus_mood_ne_interact _ now hm)
        · rw [stepFocus_mbi]
          exact h.2

lemma invMBI_gesture (s : PetStateMachine) (g : GestureType) (now : ℚ)
    (h : InvMBI s) : InvMBI (s.on_gesture g now).1 := by
  unfold PetStateMachine.on_gesture
  by_cases hm : s.mood = PetMood.Interact
  · simp only [hm, ne_eq, not_true_eq_false, if_false]
    exact ⟨fun _ => h.1 hm, h.2⟩
  · simp only [ne_eq, hm, not_false_eq_true, if_true]
    refine ⟨fun _ => by simp, ?_⟩
    simp only [ne_eq, Option.some.injEq]
    exact hm

lemma reachable_invMBI {s : PetStateMachine} (h : Reachable s) : InvMBI s := by
  induction h with
  | init config now => exact ⟨(fun hc => nomatch hc), (fun hc => nomatch hc)⟩
  | step_update s now raw face _ ih =>
    rw [update_fst]
    cases face with
    | false => exact invMBI_updateCore s now raw ih
    | true =>
      rw [if_pos rfl]
      exact invMBI_updateCore { s with last_face_detected_at := some now } now raw ih
  | step_gesture s g now _ ih => exact invMBI_gesture s g now ih
  | step_reset s _ ih => exact ih

/-- C6 (amended): on every reachable machine state, if the current mood is
Interact then `mood_before_interact` is populated.  The converse of the
spec's iff fails: when the absence rule pre-empts an active Interact, the
saved mood is left behind while the mood is no longer Interact. -/
theorem interact_implies_saved_mood (s : PetStateMachine)
    (hr : Reachable s) (hm : s.mood = PetMood.Interact) :
    s.mood_before_interact ≠ none :=
  (reachable_invMBI hr).1 hm

/-- Witness for C6 (amended) right after a gesture on a fresh machine. -/
theorem interact_implies_saved_mood_witness :
    ((PetStateMachine.new PetStateConfig.default 0).on_gesture GestureType.Wave 0).1.mood_before_interact ≠
      none :=
  interact_implies_saved_mood _
    (Reachable.step_gesture _ GestureType.Wave 0 (Reachable.init PetStateConfig.default 0))
    rfl

/-- Counterexample to C6 as stated: gesture on a fresh machine (entering
Interact with saved mood Idle), then a faceless tick — the machine has never
seen a face, so the absence rule forces Sleepy, yet the saved pre-interact
mood stays `some Idle`.  The state is reachable, `mood_before_interact` is
set, and the mood is not Interact, refuting the claimed iff. -/
theorem mood_before_interact_iff_counterexample :
    ((((PetStateMachine.new PetStateConfig.default 0).on_gesture
          GestureType.Wave 0).1.update 1 0 false).1.mood_before_interact =
        some PetMood.Idle) ∧
    ((((PetStateMachine.new PetStateConfig.default 0).on_gesture
          GestureType.Wave 0).1.update 1 0 false).1.mood = PetMood.Sleepy) := by
  decide

/-- When the absence rule does not fire, a face was on record within the
timeout (after the per-tick refresh). -/
lemma absenceFires_false_elim (s : PetStateMachine) (now : ℚ) (face : Bool)
    (h : absenceFires s now face = false) :
    ∃ t, (if face then some now else s.last_face_detected_at) = some t ∧
      ¬ s.config.away_timeout < durSince now t := by
  unfold absenceFires at h
  cases hl : (if face then some now else s.last_face_detected_at) with
  | none => rw [hl] at h; cases h
  | some t =>
    rw [hl] at h
    simp only [decide_eq_false_iff_not] at h
    exact ⟨t, rfl, h⟩

/-- A gesture outside Interact saves the mood, enters Interact, and resets
the mood-entry timer. -/
lemma on_gesture_eq (s : PetStateMachine) (g : GestureType) (now : ℚ)
    (hm : s.mood ≠ PetMood.Interact) :
    s.on_gesture g now =
      ({ s with mood := PetMood.Interact, mood_entered_at := now,
                mood_before_interact := some s.mood }, PetMood.Interact) := by
  simp [PetStateMachine.on_gesture, hm]

/-- An `update` on a machine in Interact, past `interact_duration`, with the
absence rule not firing, restores the saved pre-interact mood. -/
lemma update_interact_revert (sg : PetStateMachine) (now raw : ℚ) (face : Bool)
    (prev : PetMood)
    (hm : sg.mood = PetMood.Interact)
    (hb : sg.mood_before_interact = some prev)
    (hd : sg.config.interact_duration < durSince now sg.mood_entered_at)
    (hna : absenceFires sg now face = false) :
    (sg.update now raw face).1.mood = prev := by
  obtain ⟨t, hlt, hT⟩ := absenceFires_false_elim sg now face hna
  rw [update_fst]
  cases face with
  | true =>
    rw [if_pos rfl] at hlt
    injection hlt with he
    subst he
    rw [if_pos rfl,
      updateCore_interact_expire { sg with last_face_detected_at := some now }
        now raw now prev rfl hT hm hd hb]
  | false =>
    rw [if_neg Bool.false_ne_true] at hlt
    rw [if_neg Bool.false_ne_true,
      updateCore_interact_expire sg now raw t prev hlt hT hm hd hb]

/-- C2: from any state not in Interact, `on_gesture` saves the current mood
as the pre-interact mood, switches to Interact, resets the mood-entry
timer, and returns Interact; a subsequent `update` more than
`interact_duration` after the gesture (with the absence rule not firing and
no further gestures) reverts to exactly the mood active before the
gesture. -/
theorem gesture_interact_revert (s : PetStateMachine) (g : GestureType)
    (t0 t1 raw : ℚ) (face : Bool)
    (hm : s.mood ≠ PetMood.Interact)
    (hdur : s.config.interact_duration < t1 - t0)
    (hna : absenceFires (s.on_gesture g t0).1 t1 face = false) :
    (s.on_gesture g t0).2 = PetMood.Interact ∧
    (s.on_gesture g t0).1.mood = PetMood.Interact ∧
    (s.on_gesture g t0).1.mood_before_interact = some s.mood ∧
    (s.on_gesture g t0).1.mood_entered_at = t0 ∧
    ((s.on_gesture g t0).1.update t1 raw face).1.mood = s.mood := by
  have he := on_gesture_eq s g t0 hm
  have h2 : (s.on_gesture g t0).1.mood = PetMood.Interact := by rw [he]
  have h3 : (s.on_gesture g t0).1.mood_before_interact = some s.mood := by rw [he]
  have h4 : (s.on_gesture g t0).1.mood_entered_at = t0 := by rw [he]
  have h5 : (s.on_gesture g t0).1.config = s.config := by rw [he]
  refine ⟨by rw [he], h2, h3, h4, ?_⟩
  refine update_interact_revert _ t1 raw face s.mood h2 h3 ?_ hna
  rw [h4, h5]
  exact lt_of_lt_of_le hdur (le_max_left _ _)

/-- Witness for C2: gesture at time 0 on a fresh machine (mood Idle), then
an update at time 4 with a face present; the mood reverts to Idle. -/
theorem gesture_interact_revert_witness :
    ((PetStateMachine.new PetStateConfig.default 0).on_gesture GestureType.Wave 0).2 =
        PetMood.Interact ∧
    ((PetStateMachine.new PetStateConfig.default 0).on_gesture GestureType.Wave 0).1.mood =
        PetMood.Interact ∧
    ((PetStateMachine.new PetStateConfig.default 0).on_gesture GestureType.Wave 0).1.mood_before_interact =
        some (PetStateMachine.new PetStateConfig.default 0).mood ∧
    ((PetStateMachine.new PetStateConfig.default 0).on_gesture GestureType.Wave 0).1.mood_entered_at =
        0 ∧
    (((PetStateMachine.new PetStateConfig.default 0).on_gesture GestureType.Wave 0).1.update
        4 (1/2) true).1.mood = (PetStateMachine.new PetStateConfig.default 0).mood :=
  gesture_interact_revert (PetStateMachine.new PetStateConfig.default 0)
    GestureType.Wave 0 4 (1/2) true (by decide) (by decide) (by decide)

/-- Consecutive tick runs compose: running `m + n` ticks from index `a` is
running `m` ticks, then `n` ticks from index `a + m`. -/
lemma runSeg_append (s : PetStateMachine) (a m : ℕ) :
    ∀ n, runSeg s a (m + n) = runSeg (runSeg s a m) (a + m) n := by
  intro n
  induction n with
  | zero => rfl
  | succ n ih =>
    show tickAt (a + (m + n)) (runSeg s a (m + n)) =
      tickAt (a + m + n) (runSeg (runSeg s a m) (a + m) n)
    rw [ih, Nat.add_assoc]

set_option maxRecDepth 8000 in
/-- C9: after 100 consecutive `update(0.9, true)` ticks from the initial
state at a 15 fps cadence (a face is seen every tick, so the absence rule
never fires), the EMA-smoothed score exceeds the enter threshold, the level
ends Focused, and the mood is Happy or Excited. -/
theorem hundred_ticks_focused :
    PetStateConfig.default.focus_enter_threshold < run100.smoothed_focus_score ∧
    run100.focus_level = FocusLevel.Focused ∧
    (run100.mood = PetMood.Happy ∨ run100.mood = PetMood.Excited) := by
  have c1 : runSeg (PetStateMachine.new PetStateConfig.default 0) 0 10 = chk10 := by decide
  have c2 : runSeg chk10 10 10 = chk20 := by decide
  have c3 : runSeg chk20 20 10 = chk30 := by decide
  have c4 : runSeg chk30 30 10 = chk40 := by decide
  have c5 : runSeg chk40 40 10 = chk50 := by decide
  have c6 : runSeg chk50 50 10 = chk60 := by decide
  have c7 : runSeg chk60 60 10 = chk70 := by decide
  have c8 : runSeg chk70 70 10 = chk80 := by decide
  have c9 : runSeg chk80 80 10 = chk90 := by decide
  have c10 : runSeg chk90 90 10 = chk100 := by decide
  have s1 : runSeg (PetStateMachine.new PetStateConfig.default 0) 0 100 =
      runSeg chk10 10 90 := by
    have h := runSeg_append (PetStateMachine.new PetStateConfig.default 0) 0 10 90
    rw [c1] at h
    exact h
  have s2 : runSeg chk10 10 90 = runSeg chk20 20 80 := by
    have h := runSeg_append chk10 10 10 80
    rw [c2] at h
    exact h
  have s3 : runSeg chk20 20 80 = runSeg chk30 30 70 := by
    have h := runSeg_append chk20 20 10 70
    rw [c3] at h
    exact h
  have s4 : runSeg chk30 30 70 = runSeg chk40 40 60 := by
    have h := runSeg_append chk30 30 10 60
    rw [c4] at h
    exact h
  have s5 : runSeg chk40 40 60 = runSeg chk50 50 50 := by
    have h := runSeg_append chk40 40 10 50
    rw [c5] at h
    exact h
  have s6 : runSeg chk50 50 50 = runSeg chk60 60 40 := by
    have h := runSeg_append chk50 50 10 40
    rw [c6] at h
    exact h
  have s7 : runSeg chk60 60 40 = runSeg chk70 70 30 := by
    have h := runSeg_append chk60 60 10 30
    rw [c7] at h
    exact h
  have s8 : runSeg chk70 70 30 = runSeg chk80 80 20 := by
    have h := runSeg_append chk70 70 10 20
    rw [c8] at h
    exact h
  have s9 : runSeg chk80 80 20 = runSeg chk90 90 10 := by
    have h := runSeg_append chk80 80 10 10
    rw [c9] at h
    exact h
  have e : run100 = chk100 :=
    s1.trans (s2.trans (s3.trans (s4.trans (s5.trans (s6.trans (s7.trans
      (s8.trans (s9.trans c10))))))))
  rw [e]
  exact ⟨by decide, rfl, Or.inl rfl⟩

end FocusMochi
